import Mathlib

/-!
Shallow embedding of the gradex-ingest reconciliation-and-placement pipeline
(src/utils.go: `main`, `moveFile`, `removeFile`, `check`, and the
`filepath.Walk` index-building closure).

Modelling conventions:
* the on-disk state is an association list from path to `FileInfo`
  (contents plus modification time); Go map writes are `insertAssoc`,
  `os.Remove` is `removeAssoc` guarded by existence, lookups are
  `lookupAssoc`;
* timestamps are integers on an arbitrary timeline; Go's
  `t1.After(t2)` is `t1 > t2` and `Add(time.Minute * x)` is `+ 60 * x`
  (one minute = 60 ticks);
* `check(err)` panicking, and the `[1]` index on a nil regex submatch
  slice, are modelled by returning `none` / `StepResult.panicked`;
* `parselearn.ParseLearnReceipt` is an external collaborator: the
  environment carries it as a function returning the parsed
  `Submission` together with the Go `err == nil` flag;
* `CopyFile` success or failure is an environment flag per
  (source, target) pair; on success the hard-link branch (target
  absent) preserves the source's modification time while the
  byte-copy branch (target present) stamps the current time `now`;
* a failed copy is not clean: `copyFileContents` runs `os.Create(dst)`
  at the final name before writing, so the environment also says, per
  (source, target) pair, whether the failure struck before the target
  was touched (`none`) or after `os.Create` truncated or created it
  and `io.Copy`/`Sync` failed with some prefix of the source bytes
  written (`some n`).
-/

namespace GradexIngest

/-- Contents and modification time of one file on disk. -/
structure FileInfo where
  contents : String
  modTime : Int
  deriving DecidableEq

/-- Association-list lookup, modelling Go map reads and `os.Stat`. -/
def lookupAssoc {α : Type} : List (String × α) → String → Option α
  | [], _ => none
  | e :: rest, k => if e.1 = k then some e.2 else lookupAssoc rest k

/-- Remove every binding of a key, modelling `os.Remove` / map delete. -/
def removeAssoc {α : Type} : List (String × α) → String → List (String × α)
  | [], _ => []
  | e :: rest, k => if e.1 = k then removeAssoc rest k else e :: removeAssoc rest k

/-- Insert or overwrite a binding, modelling Go map writes and file creation. -/
def insertAssoc {α : Type} (m : List (String × α)) (k : String) (v : α) :
    List (String × α) :=
  (k, v) :: removeAssoc m k

theorem lookupAssoc_insertAssoc_self {α : Type} (m : List (String × α)) (k : String) (v : α) :
    lookupAssoc (insertAssoc m k v) k = some v := by
  simp [insertAssoc, lookupAssoc]

theorem lookupAssoc_removeAssoc_self {α : Type} (m : List (String × α)) (k : String) :
    lookupAssoc (removeAssoc m k) k = none := by
  induction m with
  | nil => rfl
  | cons e rest ih =>
    by_cases h : e.1 = k
    · simp [removeAssoc, h, ih]
    · simp [removeAssoc, lookupAssoc, h, ih]

theorem lookupAssoc_removeAssoc_ne {α : Type} (m : List (String × α)) {k k' : String}
    (h : k' ≠ k) : lookupAssoc (removeAssoc m k) k' = lookupAssoc m k' := by
  induction m with
  | nil => rfl
  | cons e rest ih =>
    by_cases he : e.1 = k
    · rw [removeAssoc, if_pos he, ih, lookupAssoc, if_neg]
      rw [he]
      exact Ne.symm h
    · rw [removeAssoc, if_neg he, lookupAssoc, lookupAssoc]
      by_cases he' : e.1 = k'
      · rw [if_pos he', if_pos he']
      · rw [if_neg he', if_neg he', ih]

theorem lookupAssoc_insertAssoc_ne {α : Type} (m : List (String × α)) {k k' : String}
    (v : α) (h : k' ≠ k) : lookupAssoc (insertAssoc m k v) k' = lookupAssoc m k' := by
  simp only [insertAssoc, lookupAssoc]
  rw [if_neg (Ne.symm h), lookupAssoc_removeAssoc_ne m h]

/-! ### The identifier-extraction step (the `filepath.Walk` closure)

`finduun, _ := regexp.Compile("_(s[0-9]{7})_attempt_")` and
`regexp.MatchString(".txt", f.Name())`, then
`extracted_uun := finduun.FindStringSubmatch(f.Name())[1]` followed by
`learn_files[strings.ToUpper(extracted_uun)] = f.Name()`. -/

/-- Matches the regex `.txt` at the head of the character list: one
arbitrary non-newline character followed by the literal `txt`. -/
def hasDotTxtAt : List Char → Bool
  | c :: 't' :: 'x' :: 't' :: _ => c != '\n'
  | _ => false

/-- Model of `regexp.MatchString(".txt", name)`: the unanchored regex
matches somewhere inside the name. -/
def matchDotTxt (name : String) : Bool :=
  name.toList.tails.any hasDotTxtAt

/-- Tries the pattern `_(s[0-9]{7})_attempt_` at the head of the
character list and returns the captured group on success. -/
def uunAt : List Char → Option String
  | '_' :: 's' :: d1 :: d2 :: d3 :: d4 :: d5 :: d6 :: d7 :: '_' :: 'a' :: 't' :: 't' ::
      'e' :: 'm' :: 'p' :: 't' :: '_' :: _ =>
    if d1.isDigit && d2.isDigit && d3.isDigit && d4.isDigit && d5.isDigit &&
        d6.isDigit && d7.isDigit then
      some (String.mk ['s', d1, d2, d3, d4, d5, d6, d7])
    else none
  | _ => none

/-- Leftmost scan for the pattern, from a given suffix. -/
def findUunFrom : List Char → Option String
  | [] => none
  | c :: rest =>
    match uunAt (c :: rest) with
    | some u => some u
    | none => findUunFrom rest

/-- Model of `finduun.FindStringSubmatch(name)` restricted to the first
capture group: `some` of the captured `s` plus seven digits for the
leftmost match, `none` when the slice would be nil. -/
def findStringSubmatch (name : String) : Option String :=
  findUunFrom name.toList

/-- Model of `strings.ToUpper`, character-wise (identifier strings are
ASCII). -/
def goToUpper (s : String) : String := String.mk (s.toList.map Char.toUpper)

/-- Model of `strings.ToLower`, character-wise (identifier strings are
ASCII). -/
def goToLower (s : String) : String := String.mk (s.toList.map Char.toLower)

/-- One step of the `filepath.Walk` closure that builds `learn_files`.
`none` models the Go runtime panic: on a `.txt`-matching name with no
regex match, `FindStringSubmatch` returns nil and the code indexes
`[1]` into it. -/
def buildIndexStep (m : List (String × String)) (name : String) :
    Option (List (String × String)) :=
  if matchDotTxt name then
    match findStringSubmatch name with
    | some uun => some (insertAssoc m (goToUpper uun) name)
    | none => none
  else some m

/-- The whole walk over the (non-directory) file names of `learnDir`;
`none` models the run crashing part-way. -/
def buildIndex : List String → List (String × String) → Option (List (String × String))
  | [], m => some m
  | n :: ns, m =>
    match buildIndexStep m n with
    | some m' => buildIndex ns m'
    | none => none

/-! ### Data model of the per-student pipeline (src/utils.go `main`) -/

/-- The fields of `parselearn.Submission` that the pipeline reads or
writes.  `dateSubmitted` is the result of
`time.Parse("2006-01-02-15-04-05", submission.DateSubmitted)` with its
error ignored (the Go zero time on an unparsable string). -/
structure Submission where
  uun : String := ""
  examNumber : String := ""
  extraTime : Int := 0
  dateSubmitted : Int := 0
  numberOfFiles : Nat := 0
  filetypeError : String := ""
  filename : String := ""
  lateSubmission : String := ""
  outputFile : String := ""
  deriving DecidableEq

/-- One class-list CSV row as consumed by the loop:
`record[0]`, `record[1]`, and `strconv.Atoi(record[4])` (errors from
`Atoi` are ignored, yielding 0). -/
structure Row where
  uun : String
  examno : String
  extratime : Int
  deriving DecidableEq

/-- Run environment: command-line configuration, the `learn_files`
index built by the walk, the external receipt parser (returning the
submission and the `err == nil` flag), whether `CopyFile` succeeds for
a given (source, target) pair, what a failed copy leaves at the target
(`copyFail`, see `copyFailFs`), and the current time stamped on
byte-copied targets. -/
structure Env where
  deadline : Int
  learnDir : String
  outputDir : String
  learn_files : List (String × String)
  parse : String → Submission × Bool
  copyOk : String → String → Bool
  copyFail : String → String → Option Nat
  now : Int

/-- Mutable state threaded through the loop: the file system and the
`submissions` / `bad_submissions` accumulators. -/
structure PState where
  fs : List (String × FileInfo)
  submissions : List Submission
  bad_submissions : List Submission
  deriving DecidableEq

/-- Result of processing: `panicked` models `check(e)` calling
`panic`, which aborts the whole process. -/
inductive StepResult where
  | panicked
  | ok (st : PState)
  deriving DecidableEq

/-! ### The lateness decision (src/utils.go lines 233-245) -/

/-- The nested conditionals deciding whether `LateSubmission` is set to
`"LATE"`: submission after the deadline, with the deadline shifted by
`time.Minute * extratime_int` when the extra-time allowance is
positive. -/
def lateDecision (sub_time deadline_time extratime_int : Int) : Bool :=
  if sub_time > deadline_time then
    if extratime_int > 0 then
      if sub_time > deadline_time + 60 * extratime_int then true else false
    else true
  else false

/-- The field mutations applied to a freshly parsed submission:
`submission.ExamNumber = student_examno`,
`submission.ExtraTime = extratime_int`, then the lateness decision,
which only ever assigns `"LATE"` (otherwise the parsed field is kept). -/
def decorate (env : Env) (row : Row) (sub0 : Submission) : Submission :=
  let sub1 : Submission :=
    { sub0 with examNumber := row.examno, extraTime := row.extratime }
  if lateDecision sub1.dateSubmitted env.deadline row.extratime then
    { sub1 with lateSubmission := "LATE" }
  else sub1

/-- Target-path computation: `outputDir+"/"+student_examno+".pdf"`,
overridden to the `LATE-` variant when the record was marked late. -/
def new_path (outputDir examno : String) (late : Bool) : String :=
  if late then outputDir ++ "/LATE-" ++ examno ++ ".pdf"
  else outputDir ++ "/" ++ examno ++ ".pdf"

/-! ### File-system helpers (src/utils.go `moveFile`, `removeFile`) -/

/-- Model of `strings.Contains(s, sub)` for a non-empty needle: some
suffix of `s` starts with `sub`. -/
def stringsContains (s sub : String) : Bool :=
  s.toList.tails.any (fun t => sub.toList.isPrefixOf t)

/-- Model of `removeFile`: `os.Remove` fails on a missing path and
`check` then panics (`none`). -/
def removeFile (fs : List (String × FileInfo)) (path : String) :
    Option (List (String × FileInfo)) :=
  if (lookupAssoc fs path).isSome then some (removeAssoc fs path) else none

/-- The file system after a failed `CopyFile`.  `fw = none`: the
failure struck before the target was touched (`os.Open` on the source
or `os.Create` on the target erroring), leaving the file system as it
was.  `fw = some n`: `os.Create(dst)` truncated or created the target
under its final name and the subsequent `io.Copy`/`out.Sync` failed
after `n` bytes were written, leaving a truncated or partially written
target (a prefix of the source bytes) stamped with the current time.
The source is never modified by a failed copy. -/
def copyFailFs (fs : List (String × FileInfo)) (path_to : String)
    (file_from : FileInfo) (fw : Option Nat) (now : Int) :
    List (String × FileInfo) :=
  match fw with
  | none => fs
  | some n => insertAssoc fs path_to ⟨String.mk (file_from.contents.toList.take n), now⟩

/-- Model of `moveFile`.  `none` is the panic from `check(err)` when
`os.Stat(path_from)` fails.  When a newer file already sits at
`path_to` the source is deleted and nothing is copied.  Otherwise
`CopyFile` runs: on failure the status is `"Done Nothing"`, the source
stays, and the target is left as `copyFailFs` describes (possibly
truncated or partially written under its final name); on success the
target receives the source's contents (hard-link keeps the source's
modification time when the target was absent, the byte-copy fallback
stamps `now` when it existed) and the source is removed. -/
def moveFile (fs : List (String × FileInfo)) (path_from path_to : String)
    (cok : Bool) (fw : Option Nat) (now : Int) :
    Option (List (String × FileInfo) × String) :=
  match lookupAssoc fs path_from with
  | none => none
  | some file_from =>
    match lookupAssoc fs path_to with
    | some file_to =>
      if file_to.modTime > file_from.modTime then
        some (removeAssoc fs path_from, "File already exists")
      else if cok then
        some (removeAssoc (insertAssoc fs path_to ⟨file_from.contents, now⟩) path_from,
          "File replaced")
      else some (copyFailFs fs path_to file_from fw now, "Done Nothing")
    | none =>
      if cok then
        some (removeAssoc (insertAssoc fs path_to file_from) path_from, "File created")
      else some (copyFailFs fs path_to file_from fw now, "Done Nothing")

/-! ### The per-record processing step (the body of the class-list loop) -/

/-- The decorated submission obtained for a receipt-backed record. -/
def receiptSub (env : Env) (row : Row) (lf : String) : Submission :=
  decorate env row (env.parse (env.learnDir ++ "/" ++ lf)).1

/-- Source path of the receipt-backed artifact:
`learnDir+"/"+submission.Filename`. -/
def receiptSrc (env : Env) (row : Row) (lf : String) : String :=
  env.learnDir ++ "/" ++ (receiptSub env row lf).filename

/-- Target path for a receipt-backed artifact, driven by
`submission.LateSubmission == "LATE"`. -/
def receiptTgt (env : Env) (row : Row) (lf : String) : String :=
  new_path env.outputDir row.examno ((receiptSub env row lf).lateSubmission == "LATE")

/-- The receipt branch of the loop body: parse the receipt, decorate,
and when the parse succeeded with exactly one declared file and no
filetype error, move the artifact into place, remove the receipt when
the move status mentions `File`, and append to `submissions`;
otherwise append to `bad_submissions`.  A parse error only logs. -/
def processReceipt (env : Env) (row : Row) (lf : String) (st : PState) : StepResult :=
  let sub := receiptSub env row lf
  if (env.parse (env.learnDir ++ "/" ++ lf)).2 then
    if sub.numberOfFiles = 1 ∧ sub.filetypeError = "" then
      match moveFile st.fs (receiptSrc env row lf) (receiptTgt env row lf)
          (env.copyOk (receiptSrc env row lf) (receiptTgt env row lf))
          (env.copyFail (receiptSrc env row lf) (receiptTgt env row lf)) env.now with
      | none => .panicked
      | some (fs1, status) =>
        if stringsContains status "File" then
          match removeFile fs1 (env.learnDir ++ "/" ++ lf) with
          | none => .panicked
          | some fs2 =>
            .ok ⟨fs2, st.submissions ++ [{ sub with outputFile := status }],
              st.bad_submissions⟩
        else
          .ok ⟨fs1, st.submissions ++ [{ sub with outputFile := status }],
            st.bad_submissions⟩
    else .ok ⟨st.fs, st.submissions, st.bad_submissions ++ [sub]⟩
  else .ok st

/-- Path probed for a manually-placed fallback artifact:
`learnDir+"/"+strings.ToLower(student_uun)+".pdf"`. -/
def fallbackSrc (env : Env) (row : Row) : String :=
  env.learnDir ++ "/" ++ goToLower row.uun ++ ".pdf"

/-- The dummy submission built for a manual fallback artifact: only
`UUN`, `ExamNumber` and `OutputFile` are ever assigned. -/
def manualSub (row : Row) (status : String) : Submission :=
  { uun := row.uun, examNumber := row.examno, outputFile := status }

/-- The manual-fallback branch: when `os.Stat` finds
`{uun-lowercased}.pdf`, move it to `outputDir+"/"+examno+".pdf"` and
append the dummy submission to `submissions`. -/
def processFallback (env : Env) (row : Row) (st : PState) : StepResult :=
  if (lookupAssoc st.fs (fallbackSrc env row)).isSome then
    match moveFile st.fs (fallbackSrc env row) (new_path env.outputDir row.examno false)
        (env.copyOk (fallbackSrc env row) (new_path env.outputDir row.examno false))
        (env.copyFail (fallbackSrc env row) (new_path env.outputDir row.examno false))
        env.now with
    | none => .panicked
    | some (fs1, status) =>
      .ok ⟨fs1, st.submissions ++ [manualSub row status], st.bad_submissions⟩
  else .ok st

/-- One iteration of the class-list loop: the receipt index is
consulted first and is authoritative; only on a miss is the manual
fallback probed. -/
def processRecord (env : Env) (row : Row) (st : PState) : StepResult :=
  match lookupAssoc env.learn_files row.uun with
  | some lf => processReceipt env row lf st
  | none => processFallback env row st

/-- The whole loop over the class-list rows; a panic on any row aborts
the remaining rows. -/
def processAll (env : Env) : List Row → PState → StepResult
  | [], st => .ok st
  | r :: rs, st =>
    match processRecord env r st with
    | .panicked => .panicked
    | .ok st' => processAll env rs st'

/-! ### Characterization of the lateness decision -/

theorem lateDecision_eq_true_iff (t d x : Int) :
    lateDecision t d x = true ↔ (d < t ∧ (0 < x → d + 60 * x < t)) := by
  unfold lateDecision
  split_ifs with h1 h2 h3 <;> simp <;> omega

theorem lateDecision_eq_false_iff (t d x : Int) :
    lateDecision t d x = false ↔ (t ≤ d ∨ (0 < x ∧ t ≤ d + 60 * x)) := by
  unfold lateDecision
  split_ifs with h1 h2 h3 <;> simp <;> omega

/-- C4: for parsed timestamp t, deadline d and extra-time-minutes x:
if t is not after d the submission is on-time; if t is after d and
x > 0 it is late iff t is after d shifted forward by x minutes; if t
is after d and x is 0 it is late. -/
theorem claim4_lateness_cases (t d x : Int) :
    (¬ t > d → lateDecision t d x = false) ∧
    (t > d → x > 0 → (lateDecision t d x = true ↔ t > d + 60 * x)) ∧
    (t > d → x = 0 → lateDecision t d x = true) := by
  refine ⟨fun h => ?_, fun h1 h2 => ?_, fun h1 h2 => ?_⟩
  · rw [lateDecision_eq_false_iff]; omega
  · rw [lateDecision_eq_true_iff]; constructor
    · exact fun h => h.2 h2
    · exact fun h3 => ⟨h1, fun _ => h3⟩
  · rw [lateDecision_eq_true_iff]; omega

theorem claim4_lateness_cases_witness :
    lateDecision 50 100 7 = false ∧ lateDecision 200 100 1 = true ∧
    lateDecision 101 100 0 = true :=
  ⟨(claim4_lateness_cases 50 100 7).1 (by decide),
   ((claim4_lateness_cases 200 100 1).2.1 (by decide) (by decide)).mpr (by decide),
   (claim4_lateness_cases 101 100 0).2.2 (by decide) rfl⟩

/-- C9: the lateness classification is monotone: raising the
extra-time allowance never turns an on-time submission late, and for a
fixed allowance a later timestamp never turns a late submission back
into on-time. -/
theorem claim9_lateness_monotone (t t' d x x' : Int) :
    (x ≤ x' → lateDecision t d x = false → lateDecision t d x' = false) ∧
    (t ≤ t' → lateDecision t d x = true → lateDecision t' d x = true) := by
  constructor
  · intro hx h
    rw [lateDecision_eq_false_iff] at h ⊢
    omega
  · intro ht h
    rw [lateDecision_eq_true_iff] at h ⊢
    omega

theorem claim9_lateness_monotone_witness :
    lateDecision 160 100 2 = false ∧ lateDecision 300 100 0 = true :=
  ⟨(claim9_lateness_monotone 160 160 100 1 2).1 (by decide) (by decide),
   (claim9_lateness_monotone 200 300 100 0 0).2 (by decide) (by decide)⟩

/-! ### Properties of `moveFile` -/

/-- Lookups away from the target are unaffected by a failed copy. -/
theorem lookupAssoc_copyFailFs_ne (fs : List (String × FileInfo)) (pt : String)
    (ff : FileInfo) (fw : Option Nat) (now : Int) {p : String} (h : p ≠ pt) :
    lookupAssoc (copyFailFs fs pt ff fw now) p = lookupAssoc fs p := by
  cases fw with
  | none => rfl
  | some n => exact lookupAssoc_insertAssoc_ne _ _ h

/-- With an existing source, `moveFile` never panics. -/
theorem moveFile_total (fs : List (String × FileInfo)) (pf pt : String) (ff : FileInfo)
    (cok : Bool) (fw : Option Nat) (now : Int) (hpf : lookupAssoc fs pf = some ff) :
    ∃ fs1 status, moveFile fs pf pt cok fw now = some (fs1, status) := by
  cases hpt : lookupAssoc fs pt with
  | none =>
    cases cok
    · exact ⟨copyFailFs fs pt ff fw now, "Done Nothing", by simp [moveFile, hpf, hpt]⟩
    · exact ⟨removeAssoc (insertAssoc fs pt ff) pf, "File created",
        by simp [moveFile, hpf, hpt]⟩
  | some ft =>
    by_cases hm : ft.modTime > ff.modTime
    · exact ⟨removeAssoc fs pf, "File already exists",
        by simp [moveFile, hpf, hpt, hm]⟩
    · cases cok
      · exact ⟨copyFailFs fs pt ff fw now, "Done Nothing",
        by simp [moveFile, hpf, hpt, hm]⟩
      · exact ⟨removeAssoc (insertAssoc fs pt ⟨ff.contents, now⟩) pf, "File replaced",
        by simp [moveFile, hpf, hpt, hm]⟩

/-- Whenever `moveFile` reports anything other than a failed copy, the
source artifact has been deleted. -/
theorem moveFile_src_removed (fs : List (String × FileInfo)) (pf pt : String)
    (cok : Bool) (fw : Option Nat) (now : Int) (fs1 : List (String × FileInfo))
    (status : String)
    (h : moveFile fs pf pt cok fw now = some (fs1, status))
    (hs : status ≠ "Done Nothing") : lookupAssoc fs1 pf = none := by
  cases hpf : lookupAssoc fs pf with
  | none => simp [moveFile, hpf] at h
  | some ff =>
    cases hpt : lookupAssoc fs pt with
    | none =>
      cases cok with
      | false =>
        simp [moveFile, hpf, hpt] at h
        exact absurd h.2.symm hs
      | true =>
        simp [moveFile, hpf, hpt] at h
        rw [← h.1]
        exact lookupAssoc_removeAssoc_self ..
    | some ft =>
      by_cases hm : ft.modTime > ff.modTime
      · simp [moveFile, hpf, hpt, hm] at h
        rw [← h.1]
        exact lookupAssoc_removeAssoc_self ..
      · cases cok with
        | false =>
          simp [moveFile, hpf, hpt, hm] at h
          exact absurd h.2.symm hs
        | true =>
          simp [moveFile, hpf, hpt, hm] at h
          rw [← h.1]
          exact lookupAssoc_removeAssoc_self ..

/-- C5: with an existing source: (1) absent target and successful
copy: source bytes land at the target, the source is removed, status
`"File created"`; (2) target newer than source: the target is kept
untouched, the source is removed, status `"File already exists"`;
(3) target present and source newer, successful copy: the target is
overwritten with the source's contents, the source is removed, status
`"File replaced"`. -/
theorem claim5_moveFile_cases (fs : List (String × FileInfo)) (pf pt : String)
    (ff : FileInfo) (cok : Bool) (fw : Option Nat) (now : Int)
    (hsrc : lookupAssoc fs pf = some ff) :
    (lookupAssoc fs pt = none →
      moveFile fs pf pt true fw now =
        some (removeAssoc (insertAssoc fs pt ff) pf, "File created") ∧
      lookupAssoc (removeAssoc (insertAssoc fs pt ff) pf) pt = some ff ∧
      lookupAssoc (removeAssoc (insertAssoc fs pt ff) pf) pf = none) ∧
    (∀ ft, lookupAssoc fs pt = some ft → ft.modTime > ff.modTime →
      moveFile fs pf pt cok fw now = some (removeAssoc fs pf, "File already exists") ∧
      lookupAssoc (removeAssoc fs pf) pt = some ft ∧
      lookupAssoc (removeAssoc fs pf) pf = none) ∧
    (∀ ft, lookupAssoc fs pt = some ft → ff.modTime > ft.modTime →
      moveFile fs pf pt true fw now =
        some (removeAssoc (insertAssoc fs pt ⟨ff.contents, now⟩) pf, "File replaced") ∧
      lookupAssoc (removeAssoc (insertAssoc fs pt ⟨ff.contents, now⟩) pf) pt =
        some ⟨ff.contents, now⟩ ∧
      lookupAssoc (removeAssoc (insertAssoc fs pt ⟨ff.contents, now⟩) pf) pf = none) := by
  refine ⟨fun hpt => ?_, fun ft hpt hmt => ?_, fun ft hpt hmt => ?_⟩
  · have hne : pt ≠ pf := by
      intro h
      rw [h, hsrc] at hpt
      exact Option.noConfusion hpt
    exact ⟨by simp [moveFile, hsrc, hpt],
      by rw [lookupAssoc_removeAssoc_ne _ hne, lookupAssoc_insertAssoc_self],
      lookupAssoc_removeAssoc_self ..⟩
  · have hne : pt ≠ pf := by
      intro h
      rw [h, hsrc] at hpt
      injection hpt with h2
      rw [h2] at hmt
      exact absurd hmt (lt_irrefl _)
    exact ⟨by simp [moveFile, hsrc, hpt, hmt],
      by rw [lookupAssoc_removeAssoc_ne _ hne, hpt],
      lookupAssoc_removeAssoc_self ..⟩
  · have hne : pt ≠ pf := by
      intro h
      rw [h, hsrc] at hpt
      injection hpt with h2
      rw [h2] at hmt
      exact absurd hmt (lt_irrefl _)
    have hm' : ¬ ft.modTime > ff.modTime := by omega
    exact ⟨by simp [moveFile, hsrc, hpt, hm'],
      by rw [lookupAssoc_removeAssoc_ne _ hne, lookupAssoc_insertAssoc_self],
      lookupAssoc_removeAssoc_self ..⟩

/-- Small concrete file system for exercising `moveFile`. -/
def fsDemo : List (String × FileInfo) := [("a.pdf", ⟨"x", 5⟩), ("b.pdf", ⟨"y", 9⟩)]

theorem claim5_moveFile_cases_witness :
    (moveFile fsDemo "a.pdf" "t.pdf" true none 99 =
      some (removeAssoc (insertAssoc fsDemo "t.pdf" ⟨"x", 5⟩) "a.pdf", "File created")) ∧
    (moveFile fsDemo "a.pdf" "b.pdf" false (some 1) 99 =
      some (removeAssoc fsDemo "a.pdf", "File already exists")) :=
  ⟨((claim5_moveFile_cases fsDemo "a.pdf" "t.pdf" ⟨"x", 5⟩ true none 99 (by decide)).1
      (by decide)).1,
   ((claim5_moveFile_cases fsDemo "a.pdf" "b.pdf" ⟨"x", 5⟩ false (some 1) 99
      (by decide)).2.1 ⟨"y", 9⟩ (by decide) (by decide)).1⟩

/-! ### Pipeline-level claims -/

/-- C7: a receipt-backed submission whose declared file count differs
from 1 or whose filetype error is non-empty is appended to
`bad_submissions` and nothing is written to the output directory (the
file system is unchanged); placement only runs in the complementary
case. -/
theorem claim7_quarantined (env : Env) (row : Row) (st : PState) (lf : String)
    (hlf : lookupAssoc env.learn_files row.uun = some lf)
    (hok : (env.parse (env.learnDir ++ "/" ++ lf)).2 = true)
    (hbad : ¬((receiptSub env row lf).numberOfFiles = 1 ∧
        (receiptSub env row lf).filetypeError = "")) :
    processRecord env row st =
      .ok ⟨st.fs, st.submissions, st.bad_submissions ++ [receiptSub env row lf]⟩ := by
  simp only [processRecord, hlf, processReceipt, hok, if_true, if_neg hbad]

/-- C2 (amended): a receipt-backed submission meeting the placement
preconditions whose copy fails with an I/O error gets status
`"Done Nothing"` and is appended to the successes sequence — not to
`bad_submissions`; the source artifact and the receipt are not
removed, but the target may be left truncated or partially written
under its final name (`os.Create` truncates or creates it before the
failing write), as `copyFailFs` describes. -/
theorem claim2_copy_failure_amended (env : Env) (row : Row) (st : PState) (lf : String)
    (ff : FileInfo)
    (hlf : lookupAssoc env.learn_files row.uun = some lf)
    (hok : (env.parse (env.learnDir ++ "/" ++ lf)).2 = true)
    (hone : (receiptSub env row lf).numberOfFiles = 1)
    (herr : (receiptSub env row lf).filetypeError = "")
    (hsrc : lookupAssoc st.fs (receiptSrc env row lf) = some ff)
    (hcopy : env.copyOk (receiptSrc env row lf) (receiptTgt env row lf) = false)
    (htgt : ∀ ft, lookupAssoc st.fs (receiptTgt env row lf) = some ft →
        ¬ ft.modTime > ff.modTime) :
    processRecord env row st =
      .ok ⟨copyFailFs st.fs (receiptTgt env row lf) ff
          (env.copyFail (receiptSrc env row lf) (receiptTgt env row lf)) env.now,
        st.submissions ++ [{ receiptSub env row lf with outputFile := "Done Nothing" }],
        st.bad_submissions⟩ ∧
    (receiptSrc env row lf ≠ receiptTgt env row lf →
      lookupAssoc (copyFailFs st.fs (receiptTgt env row lf) ff
        (env.copyFail (receiptSrc env row lf) (receiptTgt env row lf)) env.now)
        (receiptSrc env row lf) = some ff) ∧
    (env.learnDir ++ "/" ++ lf ≠ receiptTgt env row lf →
      lookupAssoc (copyFailFs st.fs (receiptTgt env row lf) ff
        (env.copyFail (receiptSrc env row lf) (receiptTgt env row lf)) env.now)
        (env.learnDir ++ "/" ++ lf) =
      lookupAssoc st.fs (env.learnDir ++ "/" ++ lf)) := by
  have hmv : moveFile st.fs (receiptSrc env row lf) (receiptTgt env row lf)
      (env.copyOk (receiptSrc env row lf) (receiptTgt env row lf))
      (env.copyFail (receiptSrc env row lf) (receiptTgt env row lf)) env.now =
      some (copyFailFs st.fs (receiptTgt env row lf) ff
        (env.copyFail (receiptSrc env row lf) (receiptTgt env row lf)) env.now,
        "Done Nothing") := by
    rw [hcopy]
    cases hpt : lookupAssoc st.fs (receiptTgt env row lf) with
    | none => simp [moveFile, hsrc, hpt]
    | some ft => simp [moveFile, hsrc, hpt, htgt ft hpt]
  have hcf : stringsContains "Done Nothing" "File" = false := by decide
  refine ⟨?_, fun hne => ?_, fun hne => ?_⟩
  · simp [processRecord, hlf, processReceipt, hok, hone, herr, hmv, hcf]
  · rw [lookupAssoc_copyFailFs_ne _ _ _ _ _ hne]
    exact hsrc
  · rw [lookupAssoc_copyFailFs_ne _ _ _ _ _ hne]

/-- C10: when a receipt-backed placement reports any of the three
`File` statuses — including `"File already exists"` — the receipt is
removed and the submission artifact is gone from the ingestion
directory. -/
theorem claim10_receipt_removed (env : Env) (row : Row) (st : PState) (lf : String)
    (fs1 : List (String × FileInfo)) (status : String) (fr : FileInfo)
    (hlf : lookupAssoc env.learn_files row.uun = some lf)
    (hok : (env.parse (env.learnDir ++ "/" ++ lf)).2 = true)
    (hone : (receiptSub env row lf).numberOfFiles = 1)
    (herr : (receiptSub env row lf).filetypeError = "")
    (hmv : moveFile st.fs (receiptSrc env row lf) (receiptTgt env row lf)
        (env.copyOk (receiptSrc env row lf) (receiptTgt env row lf))
        (env.copyFail (receiptSrc env row lf) (receiptTgt env row lf)) env.now =
        some (fs1, status))
    (hstatus : status = "File created" ∨ status = "File replaced" ∨
        status = "File already exists")
    (hrcpt : lookupAssoc fs1 (env.learnDir ++ "/" ++ lf) = some fr) :
    processRecord env row st =
      .ok ⟨removeAssoc fs1 (env.learnDir ++ "/" ++ lf),
        st.submissions ++ [{ receiptSub env row lf with outputFile := status }],
        st.bad_submissions⟩ ∧
    lookupAssoc (removeAssoc fs1 (env.learnDir ++ "/" ++ lf))
      (env.learnDir ++ "/" ++ lf) = none ∧
    lookupAssoc (removeAssoc fs1 (env.learnDir ++ "/" ++ lf))
      (receiptSrc env row lf) = none := by
  have hns : status ≠ "Done Nothing" := by
    rcases hstatus with h | h | h <;> subst h <;> decide
  have hgone : lookupAssoc fs1 (receiptSrc env row lf) = none :=
    moveFile_src_removed st.fs (receiptSrc env row lf) (receiptTgt env row lf)
      (env.copyOk (receiptSrc env row lf) (receiptTgt env row lf))
      (env.copyFail (receiptSrc env row lf) (receiptTgt env row lf)) env.now fs1 status
      hmv hns
  have hcf : stringsContains status "File" = true := by
    rcases hstatus with h | h | h <;> subst h <;> decide
  refine ⟨?_, lookupAssoc_removeAssoc_self .., ?_⟩
  · simp [processRecord, hlf, processReceipt, hok, hone, herr, hmv, hcf, removeFile,
      hrcpt]
  · by_cases h : receiptSrc env row lf = env.learnDir ++ "/" ++ lf
    · rw [h]; exact lookupAssoc_removeAssoc_self ..
    · rw [lookupAssoc_removeAssoc_ne _ h]; exact hgone

/-- C8: when the identifier has a receipt-index entry the receipt
branch runs (the manual fallback is never consulted); only on a miss
is `{identifier-lowercased}.pdf` probed, and a fallback placement
targets `{outputDir}/{examNumber}.pdf` with a record whose
late-submission field is empty, never the LATE- variant. -/
theorem claim8_receipt_priority (env : Env) (row : Row) (st : PState) :
    (∀ lf, lookupAssoc env.learn_files row.uun = some lf →
      processRecord env row st = processReceipt env row lf st) ∧
    (lookupAssoc env.learn_files row.uun = none →
      ∀ fi, lookupAssoc st.fs (fallbackSrc env row) = some fi →
      ∃ fs1 status,
        moveFile st.fs (fallbackSrc env row) (new_path env.outputDir row.examno false)
          (env.copyOk (fallbackSrc env row) (new_path env.outputDir row.examno false))
          (env.copyFail (fallbackSrc env row) (new_path env.outputDir row.examno false))
          env.now = some (fs1, status) ∧
        processRecord env row st =
          .ok ⟨fs1, st.submissions ++ [manualSub row status], st.bad_submissions⟩ ∧
        (manualSub row status).lateSubmission = "") := by
  constructor
  · intro lf hlf
    simp only [processRecord, hlf]
  · intro hnone fi hfi
    obtain ⟨fs1, status, hmv⟩ :=
      moveFile_total st.fs (fallbackSrc env row) (new_path env.outputDir row.examno false)
        fi (env.copyOk (fallbackSrc env row) (new_path env.outputDir row.examno false))
        (env.copyFail (fallbackSrc env row) (new_path env.outputDir row.examno false))
        env.now hfi
    refine ⟨fs1, status, hmv, ?_, rfl⟩
    simp [processRecord, hnone, processFallback, hfi, hmv]

/-! ### Concrete scenarios -/

/-- Receipt-backed on-time single-file submission whose copy will fail. -/
def subCopyFail : Submission :=
  { uun := "s1234567", numberOfFiles := 1, filename := "f.pdf", dateSubmitted := 50 }

def envCopyFail : Env :=
  { deadline := 100, learnDir := "L", outputDir := "O",
    learn_files := [("S1234567", "r.txt")],
    parse := fun p => if p = "L/r.txt" then (subCopyFail, true) else (({} : Submission), false),
    copyOk := fun _ _ => false,
    copyFail := fun _ _ => none,
    now := 1000 }

def stCopyFail : PState :=
  ⟨[("L/f.pdf", ⟨"body", 10⟩), ("L/r.txt", ⟨"receipt", 10⟩)], [], []⟩

def rowCopyFail : Row := ⟨"S1234567", "1234567", 0⟩

/-- Same scenario, but the failure strikes mid-copy: `os.Create`
truncated/created the target and two bytes were written before the
error. -/
def envCopyFailPart : Env :=
  { deadline := 100, learnDir := "L", outputDir := "O",
    learn_files := [("S1234567", "r.txt")],
    parse := fun p => if p = "L/r.txt" then (subCopyFail, true) else (({} : Submission), false),
    copyOk := fun _ _ => false,
    copyFail := fun _ _ => some 2,
    now := 1000 }

/-- Two class-list rows carrying the same exam number. -/
def subDupA : Submission :=
  { uun := "s1111111", numberOfFiles := 1, filename := "f1.pdf", dateSubmitted := 50 }

def subDupB : Submission :=
  { uun := "s2222222", numberOfFiles := 1, filename := "f2.pdf", dateSubmitted := 60 }

def envDup : Env :=
  { deadline := 100, learnDir := "L", outputDir := "O",
    learn_files := [("S1111111", "r1.txt"), ("S2222222", "r2.txt")],
    parse := fun p =>
      if p = "L/r1.txt" then (subDupA, true)
      else if p = "L/r2.txt" then (subDupB, true)
      else (({} : Submission), false),
    copyOk := fun _ _ => true,
    copyFail := fun _ _ => none,
    now := 1000 }

def stDup : PState :=
  ⟨[("L/f1.pdf", ⟨"A", 10⟩), ("L/f2.pdf", ⟨"B", 20⟩),
    ("L/r1.txt", ⟨"t1", 10⟩), ("L/r2.txt", ⟨"t2", 10⟩)], [], []⟩

def rowDupA : Row := ⟨"S1111111", "7777777", 0⟩

def rowDupB : Row := ⟨"S2222222", "7777777", 0⟩

def subDupAFinal : Submission :=
  { uun := "s1111111", examNumber := "7777777", extraTime := 0, dateSubmitted := 50,
    numberOfFiles := 1, filetypeError := "", filename := "f1.pdf", lateSubmission := "",
    outputFile := "File created" }

def subDupBFinal : Submission :=
  { uun := "s2222222", examNumber := "7777777", extraTime := 0, dateSubmitted := 60,
    numberOfFiles := 1, filetypeError := "", filename := "f2.pdf", lateSubmission := "",
    outputFile := "File replaced" }

/-- A receipt whose declared submission file is absent from the
ingestion directory, followed by a student with a manual fallback. -/
def subMissing : Submission :=
  { uun := "s1111111", numberOfFiles := 1, filename := "gone.pdf", dateSubmitted := 50 }

def envMissing : Env :=
  { deadline := 100, learnDir := "L", outputDir := "O",
    learn_files := [("S1111111", "r1.txt")],
    parse := fun p => if p = "L/r1.txt" then (subMissing, true) else (({} : Submission), false),
    copyOk := fun _ _ => true,
    copyFail := fun _ _ => none,
    now := 1000 }

def stMissing : PState :=
  ⟨[("L/r1.txt", ⟨"t1", 10⟩), ("L/s2222222.pdf", ⟨"C", 10⟩)], [], []⟩

def rowMissing1 : Row := ⟨"S1111111", "1111111", 0⟩

def rowMissing2 : Row := ⟨"S2222222", "2222222", 0⟩

/-- A receipt declaring two files. -/
def subTwoFiles : Submission :=
  { uun := "s1234567", numberOfFiles := 2, filename := "f.pdf", dateSubmitted := 50 }

def envTwoFiles : Env :=
  { deadline := 100, learnDir := "L", outputDir := "O",
    learn_files := [("S1234567", "r.txt")],
    parse := fun p => if p = "L/r.txt" then (subTwoFiles, true) else (({} : Submission), false),
    copyOk := fun _ _ => true,
    copyFail := fun _ _ => none,
    now := 1000 }

def stTwoFiles : PState :=
  ⟨[("L/f.pdf", ⟨"body", 10⟩), ("L/r.txt", ⟨"t", 10⟩)], [], []⟩

def rowTwoFiles : Row := ⟨"S1234567", "1234567", 0⟩

/-- A target file already in place and newer than the source. -/
def subNewer : Submission :=
  { uun := "s1234567", numberOfFiles := 1, filename := "f.pdf", dateSubmitted := 50 }

def envNewer : Env :=
  { deadline := 100, learnDir := "L", outputDir := "O",
    learn_files := [("S1234567", "r.txt")],
    parse := fun p => if p = "L/r.txt" then (subNewer, true) else (({} : Submission), false),
    copyOk := fun _ _ => true,
    copyFail := fun _ _ => none,
    now := 1000 }

def stNewer : PState :=
  ⟨[("L/f.pdf", ⟨"new", 10⟩), ("O/1234567.pdf", ⟨"old", 99⟩), ("L/r.txt", ⟨"t", 10⟩)],
    [], []⟩

def rowNewer : Row := ⟨"S1234567", "1234567", 0⟩

/-! ### Closed theorems and witnesses -/

/-- C1: a `.txt` file whose name has no `_(s[0-9]{7})_attempt_` match
does not get skipped with an explicit failure: the index-building walk
panics (indexing `[1]` into a nil submatch slice) and the whole index
build crashes, even when a well-formed receipt name follows. -/
theorem claim1_extraction_panic_on_unmatched_txt :
    matchDotTxt "notes.txt" = true ∧
    findStringSubmatch "notes.txt" = none ∧
    buildIndexStep [] "notes.txt" = none ∧
    buildIndex ["notes.txt", "exam_s1234567_attempt_2020-04-22.txt"] [] = none ∧
    buildIndex ["exam_s1234567_attempt_2020-04-22.txt"] [] =
      some [("S1234567", "exam_s1234567_attempt_2020-04-22.txt")] := by decide

/-- C2 (counterexample): a receipt-backed submission whose copy fails
is recorded in the successes sequence with status `"Done Nothing"`,
while `bad_submissions` stays empty — it is not quarantined. -/
theorem claim2_copy_failure_counterexample :
    processRecord envCopyFail rowCopyFail stCopyFail =
      .ok ⟨stCopyFail.fs,
        [{ uun := "s1234567", examNumber := "1234567", extraTime := 0,
           dateSubmitted := 50, numberOfFiles := 1, filetypeError := "",
           filename := "f.pdf", lateSubmission := "", outputFile := "Done Nothing" }],
        []⟩ := by decide

theorem claim2_copy_failure_amended_witness :
    (processRecord envCopyFail rowCopyFail stCopyFail =
      .ok ⟨stCopyFail.fs,
        [{ receiptSub envCopyFail rowCopyFail "r.txt" with outputFile := "Done Nothing" }],
        []⟩) ∧
    (processRecord envCopyFailPart rowCopyFail stCopyFail =
      .ok ⟨insertAssoc stCopyFail.fs "O/1234567.pdf" ⟨"bo", 1000⟩,
        [{ receiptSub envCopyFailPart rowCopyFail "r.txt" with
            outputFile := "Done Nothing" }],
        []⟩) ∧
    lookupAssoc stCopyFail.fs "L/f.pdf" = some ⟨"body", 10⟩ := by
  have h1 := claim2_copy_failure_amended envCopyFail rowCopyFail stCopyFail "r.txt"
    ⟨"body", 10⟩ (by decide) (by decide) (by decide) (by decide) (by decide) (by decide)
    (by intro ft hft
        rw [show lookupAssoc stCopyFail.fs
            (receiptTgt envCopyFail rowCopyFail "r.txt") = none from by decide] at hft
        exact Option.noConfusion hft)
  have h2 := claim2_copy_failure_amended envCopyFailPart rowCopyFail stCopyFail "r.txt"
    ⟨"body", 10⟩ (by decide) (by decide) (by decide) (by decide) (by decide) (by decide)
    (by intro ft hft
        rw [show lookupAssoc stCopyFail.fs
            (receiptTgt envCopyFailPart rowCopyFail "r.txt") = none from by decide] at hft
        exact Option.noConfusion hft)
  exact ⟨h1.1, h2.1, h1.2.1 (by decide)⟩

/-- C3 (counterexample): two distinct class-list rows with the same
exam number are both assigned the target `O/7777777.pdf`; the run ends
with both records in the successes sequence, no collision outcome
anywhere (`bad_submissions` is empty), and the second student's bytes
`"B"` sitting at the shared path — the first student's placed file was
overwritten. -/
theorem claim3_same_target_counterexample :
    new_path "O" "7777777" false = "O/7777777.pdf" ∧
    processAll envDup [rowDupA, rowDupB] stDup =
      .ok ⟨[("O/7777777.pdf", ⟨"B", 1000⟩)], [subDupAFinal, subDupBFinal], []⟩ ∧
    rowDupA ≠ rowDupB := by decide

/-- C3 (amended): the target path is a function of the exam number and
late flag only, so records agreeing on both are assigned the same
target path, and the pipeline performs both placements as successes
with no collision outcome — the later placement overwrites the
earlier file. -/
theorem claim3_same_target_amended :
    (∀ (o e1 e2 : String) (l1 l2 : Bool), e1 = e2 → l1 = l2 →
      new_path o e1 l1 = new_path o e2 l2) ∧
    processAll envDup [rowDupA, rowDupB] stDup =
      .ok ⟨[("O/7777777.pdf", ⟨"B", 1000⟩)], [subDupAFinal, subDupBFinal], []⟩ :=
  ⟨fun _ _ _ _ _ h1 h2 => by rw [h1, h2], by decide⟩

theorem claim3_same_target_amended_witness :
    new_path "O" "7777777" false = new_path "O" "7777777" false :=
  claim3_same_target_amended.1 "O" "7777777" "7777777" false false rfl rfl

/-- C6: a missing source file on the first student's row makes
`moveFile`'s `check(err)` panic and the whole run aborts — the second
row, which on its own would be processed and placed, is never
reached. -/
theorem claim6_row_failure_aborts_run :
    processAll envMissing [rowMissing1, rowMissing2] stMissing = .panicked ∧
    processRecord envMissing rowMissing2 stMissing =
      .ok ⟨[("O/2222222.pdf", ⟨"C", 10⟩), ("L/r1.txt", ⟨"t1", 10⟩)],
        [manualSub rowMissing2 "File created"], []⟩ := by decide

theorem claim7_quarantined_witness :
    processRecord envTwoFiles rowTwoFiles stTwoFiles =
      .ok ⟨stTwoFiles.fs, [], [receiptSub envTwoFiles rowTwoFiles "r.txt"]⟩ :=
  claim7_quarantined envTwoFiles rowTwoFiles stTwoFiles "r.txt" (by decide) (by decide)
    (by decide)

theorem claim8_receipt_priority_witness :
    processRecord envMissing rowMissing1 stMissing =
      processReceipt envMissing rowMissing1 "r1.txt" stMissing ∧
    processRecord envMissing rowMissing2 stMissing =
      .ok ⟨[("O/2222222.pdf", ⟨"C", 10⟩), ("L/r1.txt", ⟨"t1", 10⟩)],
        [manualSub rowMissing2 "File created"], []⟩ := by
  refine ⟨(claim8_receipt_priority envMissing rowMissing1 stMissing).1 "r1.txt"
    (by decide), ?_⟩
  obtain ⟨fs1, status, hmv, hpr, -⟩ :=
    (claim8_receipt_priority envMissing rowMissing2 stMissing).2 (by decide) ⟨"C", 10⟩
      (by decide)
  have hconc : moveFile stMissing.fs (fallbackSrc envMissing rowMissing2)
      (new_path envMissing.outputDir rowMissing2.examno false)
      (envMissing.copyOk (fallbackSrc envMissing rowMissing2)
        (new_path envMissing.outputDir rowMissing2.examno false))
      (envMissing.copyFail (fallbackSrc envMissing rowMissing2)
        (new_path envMissing.outputDir rowMissing2.examno false)) envMissing.now =
      some ([("O/2222222.pdf", ⟨"C", 10⟩), ("L/r1.txt", ⟨"t1", 10⟩)], "File created") := by
    decide
  rw [hconc] at hmv
  injection hmv with h4
  injection h4 with h5 h6
  subst h5
  subst h6
  exact hpr

theorem claim10_receipt_removed_witness :
    lookupAssoc (removeAssoc (removeAssoc stNewer.fs "L/f.pdf") "L/r.txt") "L/r.txt" =
      none ∧
    lookupAssoc (removeAssoc (removeAssoc stNewer.fs "L/f.pdf") "L/r.txt") "L/f.pdf" =
      none :=
  (claim10_receipt_removed envNewer rowNewer stNewer "r.txt"
      (removeAssoc stNewer.fs "L/f.pdf") "File already exists" ⟨"t", 10⟩
      (by decide) (by decide) (by decide) (by decide) (by decide)
      (Or.inr (Or.inr rfl)) (by decide)).2

end GradexIngest
